import Mathlib

/-!
Shallow embedding of `src/main.rs` (a dual-context OpenGL sharing demo built
on glutin/winit/glow) and proofs about its context-ownership discipline, its
GL resource lifecycle, its resize and redraw protocols, its teardown, and its
backend/configuration selection.

The program is single-threaded and event-driven.  Each arm of the winit event
loop is embedded as the list of abstract actions (`Act`) it performs, in
source order: context acquisitions/releases through the `ContextWrapper`
(`ct_wnd` / `ct_head` / `put_wnd` / `put_head`), GL calls issued through the
`glow` handle of one of the two contexts, surface resizes/presents, and the
redraw request.  A small interpreter `exec` gives the GL-level semantics of a
trace: renderbuffer storage, framebuffer bindings and attachments, viewports,
clears, blits and deletions.  Rust `u32 -> i32` `as` casts (the sizes handed
to `glRenderbufferStorage`, `glViewport` and `glBlitFramebuffer` are `u32`
window sizes cast with `as _`) are modelled by `toI32`, and GL calls that
would raise `GL_INVALID_VALUE` on a negative size leave the state unchanged.
-/

namespace GlutinSharing

/-- Numeric values of the `glow` constants used by the program. -/
def RENDERBUFFER : Nat := 0x8D41

/-- GL internal format `GL_RGB8`, the only format the program ever uses. -/
def RGB8 : Nat := 0x8051

/-- GL target `GL_FRAMEBUFFER`. -/
def FRAMEBUFFER : Nat := 0x8D40

/-- GL target `GL_READ_FRAMEBUFFER`. -/
def READ_FRAMEBUFFER : Nat := 0x8CA8

/-- GL attachment point `GL_COLOR_ATTACHMENT0`. -/
def COLOR_ATTACHMENT0 : Nat := 0x8CE0

/-- GL mask bit `GL_COLOR_BUFFER_BIT`. -/
def COLOR_BUFFER_BIT : Nat := 0x4000

/-- GL filter `GL_NEAREST`. -/
def NEAREST : Nat := 0x2600

/-- The two GL contexts of the program: `wnd` is the windowed (Presentation)
context, `head` the headless (Compute) context. -/
inductive Ctx
  | wnd
  | head
deriving DecidableEq, Repr

/-- The two native surfaces: the on-screen window surface and the 1x1
"headless" surface (also a window surface, see `create_surface`). -/
inductive Surf
  | window
  | headless
deriving DecidableEq, Repr

/-- The context through which a surface is resized/presented in this program. -/
def Surf.ctx : Surf → Ctx
  | .window => .wnd
  | .headless => .head

/-- Identity of the single shared renderbuffer (`render_buf` in the source). -/
def render_buf : Nat := 1

/-- Identity of the presentation context's framebuffer (`window_fb`). -/
def window_fb : Nat := 2

/-- Identity of the compute context's framebuffer (`headless_fb`). -/
def headless_fb : Nat := 3

/-- Semantics of `i as i32` on a Rust `u32`-ranged value: reduce mod `2^32`
and reinterpret in two's complement. -/
def toI32 (n : Nat) : Int :=
  if n % 2 ^ 32 < 2 ^ 31 then ((n % 2 ^ 32 : Nat) : Int)
  else ((n % 2 ^ 32 : Nat) : Int) - 2 ^ 32

/-- GL calls issued by the program (the subset of the `glow::HasContext`
surface that `main.rs` uses), with their arguments as written at the call
sites; size arguments are recorded as the `u32` values the program computes,
and the `as i32` cast is applied by the interpreter `exec`. -/
inductive GLCmd
  | createRenderbuffer (id : Nat)
  | bindRenderbuffer (target : Nat) (rb : Option Nat)
  | renderbufferStorage (target fmt w h : Nat)
  | createFramebuffer (id : Nat)
  | bindFramebuffer (target : Nat) (fb : Option Nat)
  | framebufferRenderbuffer (target attachment rbTarget : Nat) (rb : Option Nat)
  | viewport (x y w h : Nat)
  | clearColor (r g b a : Rat)
  | clear (mask : Nat)
  | blitFramebuffer (sx0 sy0 sx1 sy1 dx0 dy0 dx1 dy1 mask filter : Nat)
  | deleteFramebuffer (id : Nat)
  | deleteRenderbuffer (id : Nat)
  | checkFramebufferStatus (target : Nat)
deriving DecidableEq, Repr

/-- One abstract action of the program: a context acquisition (`ct_wnd` /
`ct_head`), a context release (`put_wnd` / `put_head`), a GL call issued
through the `glow` handle of context `c`, a surface resize, a surface
present (`swap_buffers`), or `window.request_redraw()`. -/
inductive Act
  | acquire (c : Ctx)
  | release (c : Ctx)
  | gl (c : Ctx) (cmd : GLCmd)
  | resizeSurface (s : Surf) (w h : Nat)
  | swapBuffers (s : Surf)
  | requestRedraw
deriving DecidableEq, Repr

/-- A Rust panic, as an error value: `Option::unwrap` on `None`, or
`Result::expect` at the "No display backend found" call. -/
inductive RtError
  | unwrapNone
  | expectNoDisplay
deriving DecidableEq, Repr

/-- Model of `NonZeroU32::new`: `None` exactly on zero. -/
def NonZeroU32.new (n : Nat) : Option Nat :=
  if n = 0 then none else some n

/-! ## Traces of the four event-loop arms and of initialization -/

/-- Trace of the GL resource initialization, `main.rs` lines 152-207: acquire
the window context, create the renderbuffer, allocate its storage at the
window's initial size, create and attach the window framebuffer, unbind it,
set the viewport, release; then acquire the headless context, create and
attach its framebuffer (leaving it bound), set the viewport, release. -/
def setupTrace (w h : Nat) : List Act :=
  [ .acquire .wnd,
    .gl .wnd (.createRenderbuffer render_buf),
    .gl .wnd (.bindRenderbuffer RENDERBUFFER (some render_buf)),
    .gl .wnd (.renderbufferStorage RENDERBUFFER RGB8 w h),
    .gl .wnd (.createFramebuffer window_fb),
    .gl .wnd (.bindFramebuffer FRAMEBUFFER (some window_fb)),
    .gl .wnd (.framebufferRenderbuffer FRAMEBUFFER COLOR_ATTACHMENT0 RENDERBUFFER (some render_buf)),
    .gl .wnd (.bindFramebuffer FRAMEBUFFER none),
    .gl .wnd (.viewport 0 0 w h),
    .release .wnd,
    .acquire .head,
    .gl .head (.createFramebuffer headless_fb),
    .gl .head (.bindFramebuffer FRAMEBUFFER (some headless_fb)),
    .gl .head (.bindRenderbuffer RENDERBUFFER (some render_buf)),
    .gl .head (.framebufferRenderbuffer FRAMEBUFFER COLOR_ATTACHMENT0 RENDERBUFFER (some render_buf)),
    .gl .head (.viewport 0 0 w h),
    .release .head ]

/-- Trace of the `WindowEvent::Resized` arm, `main.rs` lines 228-263, after
the stored width/height have been updated to the event's size. -/
def resizeTrace (w h : Nat) : List Act :=
  [ .acquire .wnd,
    .resizeSurface .window w h,
    .swapBuffers .window,
    .gl .wnd (.renderbufferStorage RENDERBUFFER RGB8 w h),
    .gl .wnd (.viewport 0 0 w h),
    .release .wnd,
    .acquire .head,
    .resizeSurface .headless w h,
    .swapBuffers .headless,
    .gl .head (.viewport 0 0 w h),
    .release .head,
    .requestRedraw ]

/-- The `Resized` arm with its panic behaviour: the new width and height each
pass through `NonZeroU32::new(..).unwrap()` (twice each: once for the window
surface, once for the headless surface), so a zero dimension panics. -/
def resizeHandler (w h : Nat) : Except RtError (List Act) :=
  match NonZeroU32.new w, NonZeroU32.new h with
  | some _, some _ =>
    match NonZeroU32.new w, NonZeroU32.new h with
    | some _, some _ => .ok (resizeTrace w h)
    | _, _ => .error .unwrapNone
  | _, _ => .error .unwrapNone

/-- Trace of the `Event::RedrawRequested` arm, `main.rs` lines 267-295. -/
def redrawTrace (w h : Nat) : List Act :=
  [ .acquire .head,
    .gl .head (.clearColor 1 (1 / 2) (7 / 10) 1),
    .gl .head (.clear COLOR_BUFFER_BIT),
    .swapBuffers .headless,
    .release .head,
    .acquire .wnd,
    .gl .wnd (.bindFramebuffer READ_FRAMEBUFFER (some headless_fb)),
    .gl .wnd (.blitFramebuffer 0 0 w h 0 0 w h COLOR_BUFFER_BIT NEAREST),
    .swapBuffers .window,
    .release .wnd ]

/-- Trace of the `Event::LoopDestroyed` arm, `main.rs` lines 214-226. -/
def teardownTrace : List Act :=
  [ .acquire .wnd,
    .gl .wnd (.deleteFramebuffer window_fb),
    .gl .wnd (.deleteRenderbuffer render_buf),
    .release .wnd,
    .acquire .head,
    .gl .head (.deleteFramebuffer headless_fb),
    .release .head ]

/-! ## Events and the main loop -/

/-- The winit events the program reacts to. -/
inductive Ev
  | loopDestroyed
  | windowResized (w h : Nat)
  | closeRequested
  | redrawRequested
  | other
deriving DecidableEq, Repr

/-- Processing of one event by the closure passed to `event_loop.run`.  The
state is the pair of the `width`/`height` variables captured by the closure;
`closeRequested` only sets the control flow to `Exit` and issues no action. -/
def step (e : Ev) (s : Nat × Nat) : Except RtError (List Act × (Nat × Nat)) :=
  match e with
  | .loopDestroyed => .ok (teardownTrace, s)
  | .windowResized w h =>
    match resizeHandler w h with
    | .ok t => .ok (t, (w, h))
    | .error p => .error p
  | .closeRequested => .ok ([], s)
  | .redrawRequested => .ok (redrawTrace s.1 s.2, s)
  | .other => .ok ([], s)

/-- Processing of a sequence of events, concatenating the emitted actions. -/
def processEvents : List Ev → Nat × Nat → Except RtError (List Act × (Nat × Nat))
  | [], s => .ok ([], s)
  | e :: es, s =>
    (step e s).bind fun p1 =>
      (processEvents es p1.2).bind fun p2 => .ok (p1.1 ++ p2.1, p2.2)

/-! ## Context-ownership discipline on traces -/

/-- Well-bracketed context usage, scanning a trace with the currently held
context: an `acquire` is legal only when no context is held (so at most one
context is ever current), and a `release` must name the held context (so an
acquired context is returned exactly once before the next acquire). -/
def wb : List Act → Option Ctx → Bool
  | [], _ => true
  | .acquire c :: r, none => wb r (some c)
  | .acquire _ :: _, some _ => false
  | .release c :: r, some c' => c == c' && wb r none
  | .release _ :: _, none => false
  | .gl _ _ :: r, h => wb r h
  | .resizeSurface _ _ _ :: r, h => wb r h
  | .swapBuffers _ :: r, h => wb r h
  | .requestRedraw :: r, h => wb r h

/-- The context held after a trace (meaningful on well-bracketed traces). -/
def endHeld : List Act → Option Ctx → Option Ctx
  | [], h => h
  | .acquire c :: r, _ => endHeld r (some c)
  | .release _ :: r, _ => endHeld r none
  | .gl _ _ :: r, h => endHeld r h
  | .resizeSurface _ _ _ :: r, h => endHeld r h
  | .swapBuffers _ :: r, h => endHeld r h
  | .requestRedraw :: r, h => endHeld r h

/-- Every GL call, surface resize and present in the trace is issued while
the context it belongs to is the held one (and the trace is bracketed). -/
def opsUnderHeld : List Act → Option Ctx → Bool
  | [], _ => true
  | .acquire c :: r, none => opsUnderHeld r (some c)
  | .acquire _ :: _, some _ => false
  | .release c :: r, some c' => c == c' && opsUnderHeld r none
  | .release _ :: _, none => false
  | .gl c _ :: r, h => h == some c && opsUnderHeld r h
  | .resizeSurface sf _ _ :: r, h => h == some sf.ctx && opsUnderHeld r h
  | .swapBuffers sf :: r, h => h == some sf.ctx && opsUnderHeld r h
  | .requestRedraw :: r, h => opsUnderHeld r h

/-- The context of the first `acquire` of a trace, if any. -/
def firstAcquire : List Act → Option Ctx
  | [] => none
  | .acquire c :: _ => some c
  | _ :: r => firstAcquire r

/-- Recognizer for `acquire` actions. -/
def isAcquire : Act → Bool
  | .acquire _ => true
  | _ => false

/-- Recognizer for renderbuffer deletions. -/
def isDeleteRb : Act → Bool
  | .gl _ (.deleteRenderbuffer _) => true
  | _ => false

/-- Number of renderbuffer deletions in a trace. -/
def countRbDeletes (t : List Act) : Nat := t.countP isDeleteRb

/-- Recognizer for framebuffer-completeness checks. -/
def isCheck : Act → Bool
  | .gl _ (.checkFramebufferStatus _) => true
  | _ => false

/-- Number of framebuffer-completeness checks in a trace. -/
def countChecks (t : List Act) : Nat := t.countP isCheck

/-- Recognizer for renderbuffer storage (re)allocations. -/
def isStorage : Act → Bool
  | .gl _ (.renderbufferStorage _ _ _ _) => true
  | _ => false

/-- Recognizer for GL calls that touch a renderbuffer object. -/
def touchesRb : Act → Bool
  | .gl _ (.createRenderbuffer _) => true
  | .gl _ (.bindRenderbuffer _ _) => true
  | .gl _ (.renderbufferStorage _ _ _ _) => true
  | .gl _ (.deleteRenderbuffer _) => true
  | _ => false

/-- The suffix of a trace from the acquisition of the Compute (headless)
context on. -/
def headPhase (t : List Act) : List Act :=
  t.dropWhile fun a => a != Act.acquire Ctx.head

/-! ## GL state semantics of a trace -/

/-- A signed rectangle, as the four `i32` arguments of `glViewport` or one
side of `glBlitFramebuffer`. -/
structure Rect where
  x0 : Int
  y0 : Int
  x1 : Int
  y1 : Int
deriving DecidableEq, Repr

/-- An RGBA clear color. -/
structure Color where
  r : Rat
  g : Rat
  b : Rat
  a : Rat
deriving DecidableEq, Repr

/-- Record of a `glClear`: the draw framebuffer and clear color in effect. -/
structure ClearRec where
  target : Option Nat
  color : Color
deriving DecidableEq, Repr

/-- Record of a `glBlitFramebuffer`: the read framebuffer in effect and the
cast arguments. -/
structure BlitRec where
  readSrc : Option Nat
  src : Rect
  dst : Rect
  mask : Nat
  filt : Nat
deriving DecidableEq, Repr

/-- Per-context GL state: the framebuffer bound for drawing and reading, the
renderbuffer binding, the viewport, the clear color, and a record of the last
clear and of the last blit. -/
structure CtxGL where
  drawFb : Option Nat := none
  readFb : Option Nat := none
  boundRb : Option Nat := none
  viewport : Rect := ⟨0, 0, 0, 0⟩
  clearCol : Color := ⟨0, 0, 0, 0⟩
  lastClear : Option ClearRec := none
  lastBlit : Option BlitRec := none
deriving DecidableEq, Repr

/-- Global GL/windowing state: the two contexts' state, the storage of the
shared renderbuffer (format and signed sizes, `none` before allocation), how
often the shared renderbuffer has been deleted, the color attachment 0 of
each framebuffer of each context, the deleted framebuffers, the log of
surface presents, and the two surface sizes. -/
structure GLState where
  wnd : CtxGL := {}
  head : CtxGL := {}
  rbStorage : Option (Nat × Int × Int) := none
  rbDeleted : Nat := 0
  attach : Ctx → Nat → Option Nat := fun _ _ => none
  deletedFbs : List (Ctx × Nat) := []
  presents : List Surf := []
  windowSurf : Nat × Nat := (0, 0)
  headlessSurf : Nat × Nat := (0, 0)

/-- The per-context state of context `c`. -/
def ctxOf (s : GLState) : Ctx → CtxGL
  | .wnd => s.wnd
  | .head => s.head

/-- Replace the per-context state of context `c`. -/
def withCtx (s : GLState) : Ctx → CtxGL → GLState
  | .wnd, g => { s with wnd := g }
  | .head, g => { s with head := g }

/-- Effect of one GL call issued through context `c`.  Size arguments go
through the `as i32` cast `toI32`; a call whose cast width or height is
negative raises `GL_INVALID_VALUE` and leaves the state unchanged, as does a
`renderbufferStorage` without a renderbuffer binding or a
`framebufferRenderbuffer` against the default framebuffer. -/
def execCmd (s : GLState) (c : Ctx) : GLCmd → GLState
  | .createRenderbuffer _ => s
  | .bindRenderbuffer _ rb => withCtx s c { ctxOf s c with boundRb := rb }
  | .renderbufferStorage _ fmt w h =>
    if (ctxOf s c).boundRb = some render_buf ∧ 0 ≤ toI32 w ∧ 0 ≤ toI32 h then
      { s with rbStorage := some (fmt, toI32 w, toI32 h) }
    else s
  | .createFramebuffer _ => s
  | .bindFramebuffer target fb =>
    if target = FRAMEBUFFER then
      withCtx s c { ctxOf s c with drawFb := fb, readFb := fb }
    else if target = READ_FRAMEBUFFER then
      withCtx s c { ctxOf s c with readFb := fb }
    else s
  | .framebufferRenderbuffer _ _ _ rb =>
    match (ctxOf s c).drawFb with
    | none => s
    | some fb =>
      { s with attach := fun c' fb' => if c' = c ∧ fb' = fb then rb else s.attach c' fb' }
  | .viewport x y w h =>
    if 0 ≤ toI32 w ∧ 0 ≤ toI32 h then
      withCtx s c { ctxOf s c with viewport := ⟨toI32 x, toI32 y, toI32 w, toI32 h⟩ }
    else s
  | .clearColor r g b a => withCtx s c { ctxOf s c with clearCol := ⟨r, g, b, a⟩ }
  | .clear _ =>
    withCtx s c { ctxOf s c with lastClear := some ⟨(ctxOf s c).drawFb, (ctxOf s c).clearCol⟩ }
  | .blitFramebuffer sx0 sy0 sx1 sy1 dx0 dy0 dx1 dy1 mask filt =>
    withCtx s c { ctxOf s c with lastBlit := some ⟨(ctxOf s c).readFb,
      ⟨toI32 sx0, toI32 sy0, toI32 sx1, toI32 sy1⟩,
      ⟨toI32 dx0, toI32 dy0, toI32 dx1, toI32 dy1⟩, mask, filt⟩ }
  | .deleteFramebuffer fb => { s with deletedFbs := s.deletedFbs ++ [(c, fb)] }
  | .deleteRenderbuffer rb =>
    if rb = render_buf then { s with rbDeleted := s.rbDeleted + 1 } else s
  | .checkFramebufferStatus _ => s

/-- Effect of one action on the GL/windowing state (`acquire`, `release` and
`requestRedraw` do not change GL state). -/
def execAct (s : GLState) : Act → GLState
  | .gl c cmd => execCmd s c cmd
  | .resizeSurface .window w h => { s with windowSurf := (w, h) }
  | .resizeSurface .headless w h => { s with headlessSurf := (w, h) }
  | .swapBuffers sf => { s with presents := s.presents ++ [sf] }
  | .acquire _ => s
  | .release _ => s
  | .requestRedraw => s

/-- Execution of a trace. -/
def exec (s : GLState) (t : List Act) : GLState := t.foldl execAct s

/-- State when the GL initialization starts: surfaces exist with the window's
initial size and 1x1 (`main.rs` lines 141-142), nothing else is set up. -/
def startState (w0 h0 : Nat) : GLState :=
  { windowSurf := (w0, h0), headlessSurf := (1, 1) }

/-- State after the GL resource initialization at initial window size. -/
def postSetup (w0 h0 : Nat) : GLState :=
  exec (startState w0 h0) (setupTrace w0 h0)

/-! ## Surface creation, the context wrapper, and backend selection -/

/-- A created window surface: the native window handle it was built from and
its size.  Both program surfaces are window surfaces over the same handle. -/
structure SurfaceModel where
  handle : Nat
  size : Nat × Nat
deriving DecidableEq, Repr

/-- Model of `create_surface` (`main.rs` lines 98-109): both dimensions pass
through `NonZeroU32::new(..).unwrap()`, and the surface attributes are built
from the given raw window handle. -/
def create_surface (width height : Nat) (raw_wnd : Nat) : Except RtError SurfaceModel :=
  match NonZeroU32.new width with
  | none => .error .unwrapNone
  | some w =>
    match NonZeroU32.new height with
    | none => .error .unwrapNone
    | some h => .ok { handle := raw_wnd, size := (w, h) }

/-- Model of the `ContextWrapper` struct: each context slot holds `some ()`
while the `NotCurrentContext` is stored (not current) and `none` while it has
been taken out by `ct_wnd`/`ct_head` (current). -/
structure ContextWrapper where
  window_surface : SurfaceModel
  headless_surface : SurfaceModel
  window : Option Unit
  headless : Option Unit
deriving DecidableEq, Repr

/-- The handle returned by `make_current`: which context is current and the
surface it was made current against (the thread binding). -/
structure CurrentHandle where
  which : Ctx
  boundSurface : SurfaceModel
deriving DecidableEq, Repr

/-- Model of `ContextWrapper::ct_wnd`: `self.window.take().unwrap()` panics
when the slot is empty (the context is already out, i.e. current); otherwise
the context is made current against the window surface. -/
def ct_wnd (cw : ContextWrapper) : Except RtError (CurrentHandle × ContextWrapper) :=
  match cw.window with
  | none => .error .unwrapNone
  | some _ => .ok ({ which := .wnd, boundSurface := cw.window_surface },
      { cw with window := none })

/-- Model of `ContextWrapper::ct_head`, symmetric to `ct_wnd`. -/
def ct_head (cw : ContextWrapper) : Except RtError (CurrentHandle × ContextWrapper) :=
  match cw.headless with
  | none => .error .unwrapNone
  | some _ => .ok ({ which := .head, boundSurface := cw.headless_surface },
      { cw with headless := none })

/-- Model of `ContextWrapper::put_wnd`: the handle is made not current and
stored back. -/
def put_wnd (cw : ContextWrapper) (_ : CurrentHandle) : ContextWrapper :=
  { cw with window := some () }

/-- Model of `ContextWrapper::put_head`. -/
def put_head (cw : ContextWrapper) (_ : CurrentHandle) : ContextWrapper :=
  { cw with headless := some () }

/-- A display configuration, described by the two predicates the program's
config template filters on: compatibility with the given native window and
window-surface support. -/
structure GlConfigDesc where
  compatibleWithWindow : Bool
  supportsWindow : Bool
  id : Nat
deriving DecidableEq, Repr

/-- The two display backends the program can try. -/
inductive BackendKind
  | glx
  | egl
deriving DecidableEq, Repr

/-- Environment of `select_display_config`: the outcome of the GLX attempt
and of the EGL attempt of `Display::from_raw`, each either a failure or a
connection carrying its configuration enumeration (in enumeration order). -/
structure DisplayEnv where
  glx : Option (List GlConfigDesc)
  egl : Option (List GlConfigDesc)
deriving DecidableEq, Repr

/-- Model of `display.find_configs` with the template
`ConfigTemplateBuilder::new().compatible_with_native_window(raw_wnd)
.with_surface_type(ConfigSurfaceTypes::WINDOW)`: the display's enumeration
filtered, order preserved. -/
def find_configs (cfgs : List GlConfigDesc) : List GlConfigDesc :=
  cfgs.filter fun c => c.compatibleWithWindow && c.supportsWindow

/-- Model of `select_display_config` (`main.rs` lines 53-96): try GLX, then
EGL on failure, `expect` aborting if both fail; then take the first filtered
configuration, `unwrap` aborting if there is none. -/
def select_display_config (env : DisplayEnv) : Except RtError (BackendKind × GlConfigDesc) :=
  let display : Option (BackendKind × List GlConfigDesc) :=
    match env.glx with
    | some d => some (.glx, d)
    | none =>
      match env.egl with
      | some d => some (.egl, d)
      | none => none
  match display with
  | none => .error .expectNoDisplay
  | some (k, cfgs) =>
    match (find_configs cfgs).head? with
    | none => .error .unwrapNone
    | some c => .ok (k, c)

/-! ## Claim predicates transcribed from the specification's words -/

/-- Whether some `createRenderbuffer` call of the trace is issued through
context `c`. -/
def createdRbUnder (t : List Act) (c : Ctx) : Bool :=
  t.any fun a =>
    match a with
    | .gl c' (.createRenderbuffer _) => c' == c
    | _ => false

/-- Transcription of claim C2's ordering: in the initialization, the Compute
(headless) context is acquired first and the renderbuffer is created under
it.  (Checked against the embedded initialization trace.) -/
def claimC2Order (w h : Nat) : Bool :=
  firstAcquire (setupTrace w h) == some Ctx.head
    && createdRbUnder (setupTrace w h) Ctx.head

/-- Whether an action is a framebuffer attachment or a renderbuffer storage
(re)allocation — the calls after which claim C6 asserts a completeness
check. -/
def isAttachOrStorage : Act → Bool
  | .gl _ (.framebufferRenderbuffer _ _ _ _) => true
  | .gl _ (.renderbufferStorage _ _ _ _) => true
  | _ => false

/-- Whether every attachment/storage call of the trace is immediately
followed by a framebuffer-completeness check. -/
def immediatelyChecked : List Act → Bool
  | [] => true
  | a :: rest =>
    if isAttachOrStorage a then
      match rest with
      | .gl _ (.checkFramebufferStatus _) :: _ => immediatelyChecked rest
      | _ => false
    else immediatelyChecked rest

/-- Transcription of claim C6: after every attachment and every renderbuffer
resize of the initialization and of a resize round, completeness is checked
immediately. -/
def claimC6Checked (w h : Nat) : Bool :=
  immediatelyChecked (setupTrace w h) && immediatelyChecked (resizeTrace w h)

/-! ## Helper lemmas -/

theorem toI32_small {n : Nat} (h : n < 2 ^ 31) : toI32 n = (n : Int) := by
  unfold toI32
  rw [Nat.mod_eq_of_lt (lt_trans h (by norm_num))]
  rw [if_pos h]

theorem toI32_nonneg {n : Nat} (h : n < 2 ^ 31) : 0 ≤ toI32 n := by
  rw [toI32_small h]
  exact Int.natCast_nonneg n

theorem wb_append (t1 t2 : List Act) :
    ∀ hd, wb (t1 ++ t2) hd = (wb t1 hd && wb t2 (endHeld t1 hd)) := by
  induction t1 with
  | nil => intro hd; simp [wb, endHeld]
  | cons a r ih =>
    intro hd
    cases a <;> cases hd <;> simp [wb, endHeld, ih, Bool.and_assoc]

theorem endHeld_append (t1 t2 : List Act) :
    ∀ hd, endHeld (t1 ++ t2) hd = endHeld t2 (endHeld t1 hd) := by
  induction t1 with
  | nil => intro hd; simp [endHeld]
  | cons a r ih =>
    intro hd
    cases a <;> simp [endHeld, ih]

theorem wb_setupTrace (w h : Nat) : wb (setupTrace w h) none = true := rfl

theorem endHeld_setupTrace (w h : Nat) : endHeld (setupTrace w h) none = none := rfl

theorem wb_resizeTrace (w h : Nat) : wb (resizeTrace w h) none = true := rfl

theorem endHeld_resizeTrace (w h : Nat) : endHeld (resizeTrace w h) none = none := rfl

theorem wb_redrawTrace (w h : Nat) : wb (redrawTrace w h) none = true := rfl

theorem endHeld_redrawTrace (w h : Nat) : endHeld (redrawTrace w h) none = none := rfl

theorem wb_teardownTrace : wb teardownTrace none = true := rfl

theorem endHeld_teardownTrace : endHeld teardownTrace none = none := rfl

theorem resizeHandler_ok (w h : Nat) (hw : 0 < w) (hh : 0 < h) :
    resizeHandler w h = .ok (resizeTrace w h) := by
  simp [resizeHandler, NonZeroU32.new, hw.ne', hh.ne']

theorem resizeHandler_ok_shape {w h : Nat} {t : List Act} (he : resizeHandler w h = .ok t) :
    t = resizeTrace w h := by
  cases hw : NonZeroU32.new w <;> cases hh : NonZeroU32.new h <;>
    simp [resizeHandler, hw, hh] at he
  exact he.symm

theorem step_ok_wb (e : Ev) (s : Nat × Nat) (t : List Act) (s' : Nat × Nat)
    (hst : step e s = .ok (t, s')) : wb t none = true ∧ endHeld t none = none := by
  cases e with
  | loopDestroyed =>
    simp [step] at hst
    obtain ⟨h1, -⟩ := hst
    subst h1
    exact ⟨wb_teardownTrace, endHeld_teardownTrace⟩
  | windowResized w h =>
    simp only [step] at hst
    cases hr : resizeHandler w h with
    | error p => rw [hr] at hst; cases hst
    | ok t0 =>
      rw [hr] at hst
      injection hst with hst
      have h1 : t0 = t := congrArg Prod.fst hst
      rw [← h1, resizeHandler_ok_shape hr]
      exact ⟨wb_resizeTrace w h, endHeld_resizeTrace w h⟩
  | closeRequested =>
    simp [step] at hst
    obtain ⟨h1, -⟩ := hst
    subst h1
    exact ⟨rfl, rfl⟩
  | redrawRequested =>
    simp [step] at hst
    obtain ⟨h1, -⟩ := hst
    subst h1
    exact ⟨wb_redrawTrace s.1 s.2, endHeld_redrawTrace s.1 s.2⟩
  | other =>
    simp [step] at hst
    obtain ⟨h1, -⟩ := hst
    subst h1
    exact ⟨rfl, rfl⟩

theorem processEvents_cons_inv {e : Ev} {es : List Ev} {s : Nat × Nat} {tr : List Act}
    {s' : Nat × Nat} (hp : processEvents (e :: es) s = .ok (tr, s')) :
    ∃ t s1 t2, step e s = .ok (t, s1) ∧ processEvents es s1 = .ok (t2, s') ∧ tr = t ++ t2 := by
  simp only [processEvents] at hp
  cases hst : step e s with
  | error p => rw [hst] at hp; cases hp
  | ok p1 =>
    obtain ⟨t, s1⟩ := p1
    rw [hst] at hp
    simp only [Except.bind] at hp
    cases hpr : processEvents es s1 with
    | error p => rw [hpr] at hp; cases hp
    | ok p2 =>
      obtain ⟨t2, s2⟩ := p2
      rw [hpr] at hp
      simp only [Except.bind] at hp
      injection hp with hp
      have h1 : t ++ t2 = tr := congrArg Prod.fst hp
      have h2 : s2 = s' := congrArg Prod.snd hp
      refine ⟨t, s1, t2, rfl, ?_, h1.symm⟩
      rw [hpr, h2]

theorem processEvents_wb :
    ∀ (evs : List Ev) (s : Nat × Nat) (tr : List Act) (s' : Nat × Nat),
      processEvents evs s = .ok (tr, s') → wb tr none = true ∧ endHeld tr none = none := by
  intro evs
  induction evs with
  | nil =>
    intro s tr s' hp
    simp [processEvents] at hp
    obtain ⟨h1, -⟩ := hp
    subst h1
    exact ⟨rfl, rfl⟩
  | cons e es ih =>
    intro s tr s' hp
    obtain ⟨t, s1, t2, hst, hpr, htr⟩ := processEvents_cons_inv hp
    have hw1 := step_ok_wb e s t s1 hst
    have hw2 := ih s1 t2 s' hpr
    constructor
    · rw [htr, wb_append, hw1.1, hw1.2, hw2.1]
      rfl
    · rw [htr, endHeld_append, hw1.2, hw2.2]

theorem processEvents_append_inv {l1 l2 : List Ev} :
    ∀ {s : Nat × Nat} {tr : List Act} {s' : Nat × Nat},
      processEvents (l1 ++ l2) s = .ok (tr, s') →
      ∃ t1 s1 t2, processEvents l1 s = .ok (t1, s1) ∧ processEvents l2 s1 = .ok (t2, s') ∧
        tr = t1 ++ t2 := by
  induction l1 with
  | nil =>
    intro s tr s' hp
    exact ⟨[], s, tr, rfl, hp, rfl⟩
  | cons e r ih =>
    intro s tr s' hp
    rw [List.cons_append] at hp
    obtain ⟨t, s1, t2, hst, hrest, htr⟩ := processEvents_cons_inv hp
    obtain ⟨t1, s2, t3, hr1, hr2, ht2⟩ := ih hrest
    refine ⟨t ++ t1, s2, t3, ?_, hr2, by rw [htr, ht2, List.append_assoc]⟩
    simp only [processEvents, hst, Except.bind, hr1]

theorem countRbDeletes_resizeTrace (w h : Nat) : countRbDeletes (resizeTrace w h) = 0 := rfl

theorem countRbDeletes_redrawTrace (w h : Nat) : countRbDeletes (redrawTrace w h) = 0 := rfl

theorem countRbDeletes_teardownTrace : countRbDeletes teardownTrace = 1 := rfl

theorem step_ok_no_rbDelete {e : Ev} {s : Nat × Nat} {t : List Act} {s' : Nat × Nat}
    (hne : e ≠ Ev.loopDestroyed) (hst : step e s = .ok (t, s')) : countRbDeletes t = 0 := by
  cases e with
  | loopDestroyed => exact absurd rfl hne
  | windowResized w h =>
    simp only [step] at hst
    cases hr : resizeHandler w h with
    | error p => rw [hr] at hst; cases hst
    | ok t0 =>
      rw [hr] at hst
      injection hst with hst
      have h1 : t0 = t := congrArg Prod.fst hst
      rw [← h1, resizeHandler_ok_shape hr]
      exact countRbDeletes_resizeTrace w h
  | closeRequested =>
    simp [step] at hst
    obtain ⟨h1, -⟩ := hst
    subst h1
    rfl
  | redrawRequested =>
    simp [step] at hst
    obtain ⟨h1, -⟩ := hst
    subst h1
    exact countRbDeletes_redrawTrace s.1 s.2
  | other =>
    simp [step] at hst
    obtain ⟨h1, -⟩ := hst
    subst h1
    rfl

theorem processEvents_no_rbDelete :
    ∀ (evs : List Ev) (s : Nat × Nat) (tr : List Act) (s' : Nat × Nat),
      (∀ e ∈ evs, e ≠ Ev.loopDestroyed) → processEvents evs s = .ok (tr, s') →
      countRbDeletes tr = 0 := by
  intro evs
  induction evs with
  | nil =>
    intro s tr s' _ hp
    simp [processEvents] at hp
    obtain ⟨h1, -⟩ := hp
    subst h1
    rfl
  | cons e es ih =>
    intro s tr s' hne hp
    obtain ⟨t, s1, t2, hst, hpr, htr⟩ := processEvents_cons_inv hp
    have h1 := step_ok_no_rbDelete (hne e (List.mem_cons_self e es)) hst
    have h2 := ih s1 t2 s' (fun x hx => hne x (List.mem_cons_of_mem e hx)) hpr
    rw [htr]
    unfold countRbDeletes at h1 h2 ⊢
    rw [List.countP_append, h1, h2]

theorem isSuffixOf_append_self (t l : List Act) : t.isSuffixOf (l ++ t) = true := by
  unfold List.isSuffixOf
  rw [List.reverse_append, List.isPrefixOf_iff_prefix]
  exact List.prefix_append t.reverse l.reverse

theorem execCmd_windowSurf (s : GLState) (c : Ctx) (cmd : GLCmd) :
    (execCmd s c cmd).windowSurf = s.windowSurf := by
  cases cmd <;> cases c <;>
    simp only [execCmd, withCtx, ctxOf] <;>
    (repeat' split) <;> rfl

theorem execCmd_headlessSurf (s : GLState) (c : Ctx) (cmd : GLCmd) :
    (execCmd s c cmd).headlessSurf = s.headlessSurf := by
  cases cmd <;> cases c <;>
    simp only [execCmd, withCtx, ctxOf] <;>
    (repeat' split) <;> rfl

theorem toI32_zero : toI32 0 = 0 := by decide

theorem exec_resizeTrace (s : GLState) (w h : Nat)
    (hrb : s.wnd.boundRb = some render_buf) (hw : w < 2 ^ 31) (hh : h < 2 ^ 31) :
    exec s (resizeTrace w h) =
      { s with
        windowSurf := (w, h),
        headlessSurf := (w, h),
        presents := s.presents ++ [Surf.window, Surf.headless],
        rbStorage := some (RGB8, (w : Int), (h : Int)),
        wnd := { s.wnd with viewport := ⟨0, 0, (w : Int), (h : Int)⟩ },
        head := { s.head with viewport := ⟨0, 0, (w : Int), (h : Int)⟩ } } := by
  simp [resizeTrace, exec, execAct, execCmd, ctxOf, withCtx, hrb,
    toI32_small hw, toI32_small hh, toI32_zero, Int.natCast_nonneg]

theorem exec_resizeTrace_surfaces (s : GLState) (w h : Nat) :
    (exec s (resizeTrace w h)).headlessSurf = (w, h) ∧
    (exec s (resizeTrace w h)).windowSurf = (w, h) := by
  simp only [resizeTrace, exec, List.foldl, execAct]
  constructor <;> simp [execCmd_headlessSurf, execCmd_windowSurf]

theorem exec_setupTrace_facts (w h : Nat) (hw : w < 2 ^ 31) (hh : h < 2 ^ 31) :
    (postSetup w h).rbStorage = some (RGB8, (w : Int), (h : Int)) ∧
    (postSetup w h).wnd.boundRb = some render_buf ∧
    (postSetup w h).head.boundRb = some render_buf ∧
    (postSetup w h).head.drawFb = some headless_fb ∧
    (postSetup w h).wnd.drawFb = none ∧
    (postSetup w h).attach .wnd window_fb = some render_buf ∧
    (postSetup w h).attach .head headless_fb = some render_buf ∧
    (postSetup w h).wnd.viewport = ⟨0, 0, (w : Int), (h : Int)⟩ ∧
    (postSetup w h).head.viewport = ⟨0, 0, (w : Int), (h : Int)⟩ ∧
    (postSetup w h).windowSurf = (w, h) ∧
    (postSetup w h).headlessSurf = (1, 1) := by
  unfold postSetup startState
  simp [setupTrace, exec, execAct, execCmd, ctxOf, withCtx, toI32_small hw, toI32_small hh,
    toI32_zero, Int.natCast_nonneg, RENDERBUFFER, FRAMEBUFFER, READ_FRAMEBUFFER,
    render_buf, window_fb, headless_fb, RGB8]

theorem exec_redrawTrace_facts (s : GLState) (w h : Nat) (hw : w < 2 ^ 31) (hh : h < 2 ^ 31)
    (hfb : s.head.drawFb = some headless_fb) :
    (exec s (redrawTrace w h)).head.lastClear = some ⟨some headless_fb, ⟨1, 1 / 2, 7 / 10, 1⟩⟩ ∧
    (exec s (redrawTrace w h)).wnd.lastBlit = some ⟨some headless_fb,
      ⟨0, 0, (w : Int), (h : Int)⟩, ⟨0, 0, (w : Int), (h : Int)⟩, COLOR_BUFFER_BIT, NEAREST⟩ ∧
    (exec s (redrawTrace w h)).presents = s.presents ++ [Surf.headless, Surf.window] ∧
    (exec s (redrawTrace w h)).attach = s.attach ∧
    (exec s (redrawTrace w h)).rbStorage = s.rbStorage := by
  simp [redrawTrace, exec, execAct, execCmd, ctxOf, withCtx, hfb, toI32_small hw,
    toI32_small hh, toI32_zero, FRAMEBUFFER, READ_FRAMEBUFFER]

theorem exec_teardownTrace (s : GLState) :
    (exec s teardownTrace).rbDeleted = s.rbDeleted + 1 ∧
    (exec s teardownTrace).deletedFbs =
      s.deletedFbs ++ [(Ctx.wnd, window_fb), (Ctx.head, headless_fb)] := by
  simp [teardownTrace, exec, execAct, execCmd, ctxOf, withCtx]

/-! ## Claim theorems -/

/-- C1: for every sequence of events the main loop processes without
panicking, the combined action trace (initialization followed by the
handlers' actions) is well bracketed: at most one of the two contexts
(Presentation/window, Compute/headless) is ever current — `wb` refuses an
`acquire` while a context is held — and every context acquired via
`ct_wnd`/`ct_head` is released via the matching `put_wnd`/`put_head` exactly
once before the next acquire of either context, with no context held at the
end. -/
theorem main_loop_context_discipline (evs : List Ev) (w0 h0 : Nat) (tr : List Act)
    (s' : Nat × Nat) (hp : processEvents evs (w0, h0) = .ok (tr, s')) :
    wb (setupTrace w0 h0 ++ tr) none = true ∧
    endHeld (setupTrace w0 h0 ++ tr) none = none := by
  have hw := processEvents_wb evs (w0, h0) tr s' hp
  constructor
  · rw [wb_append, wb_setupTrace, endHeld_setupTrace, hw.1]
    rfl
  · rw [endHeld_append, endHeld_setupTrace, hw.2]

theorem main_loop_context_discipline_witness :
    wb (setupTrace 640 480 ++
      (resizeTrace 400 300 ++ (redrawTrace 400 300 ++ (teardownTrace ++ [])))) none = true ∧
    endHeld (setupTrace 640 480 ++
      (resizeTrace 400 300 ++ (redrawTrace 400 300 ++ (teardownTrace ++ [])))) none = none :=
  main_loop_context_discipline
    [.windowResized 400 300, .redrawRequested, .loopDestroyed] 640 480 _ (400, 300) rfl

/-- C8: acquiring a context through the wrapper fails fatally (the
`DoubleAcquire` condition surfaces as the `Option::unwrap` panic of
`take().unwrap()`) exactly when that context's slot is empty, i.e. the
context is already current; otherwise the slot is emptied (the Current
state), the context is bound together with its associated surface, and the
returned handle is the capability carrying the current context. -/
theorem acquire_transition (cw : ContextWrapper) :
    (cw.window = none → ct_wnd cw = .error .unwrapNone) ∧
    (cw.window = some () → ct_wnd cw =
      .ok ({ which := .wnd, boundSurface := cw.window_surface },
        { cw with window := none })) ∧
    (cw.headless = none → ct_head cw = .error .unwrapNone) ∧
    (cw.headless = some () → ct_head cw =
      .ok ({ which := .head, boundSurface := cw.headless_surface },
        { cw with headless := none })) := by
  refine ⟨fun hc => ?_, fun hc => ?_, fun hc => ?_, fun hc => ?_⟩ <;>
    simp [ct_wnd, ct_head, hc]

theorem acquire_transition_witness :
    ct_wnd (⟨⟨5, (640, 480)⟩, ⟨5, (1, 1)⟩, some (), some ()⟩ : ContextWrapper) =
      .ok (⟨.wnd, ⟨5, (640, 480)⟩⟩, ⟨⟨5, (640, 480)⟩, ⟨5, (1, 1)⟩, none, some ()⟩) ∧
    ct_wnd (⟨⟨5, (640, 480)⟩, ⟨5, (1, 1)⟩, none, some ()⟩ : ContextWrapper) =
      .error .unwrapNone :=
  ⟨(acquire_transition _).2.1 rfl, (acquire_transition _).1 rfl⟩

/-- C9: assuming the resize event carries a positive width and height (zero
sizes are rejected upstream), every `NonZeroU32::new(..).unwrap()` in the
resize arm succeeds, so the zero-dimension panic branches are unreachable and
the handler runs to completion, producing the full resize trace. -/
theorem resize_handler_total (w h : Nat) (hw : 0 < w) (hh : 0 < h) :
    resizeHandler w h = .ok (resizeTrace w h) :=
  resizeHandler_ok w h hw hh

theorem resize_handler_total_witness :
    resizeHandler 800 600 = .ok (resizeTrace 800 600) :=
  resize_handler_total 800 600 (by decide) (by decide)

/-- C7: `select_display_config` first attempts the GLX backend and uses it
whenever it succeeds, falls back to EGL only when GLX fails, and aborts with
the no-display-backend error when both fail; after a connection succeeds the
configurations are filtered to window compatibility and window-surface
support with enumeration order preserved (a sublist of the enumeration), and
the first filtered configuration is selected. -/
theorem backend_fallback_selection (env : DisplayEnv) :
    (∀ cfgs c, env.glx = some cfgs → (find_configs cfgs).head? = some c →
      select_display_config env = .ok (.glx, c)) ∧
    (∀ cfgs c, env.glx = none → env.egl = some cfgs → (find_configs cfgs).head? = some c →
      select_display_config env = .ok (.egl, c)) ∧
    (env.glx = none → env.egl = none →
      select_display_config env = .error .expectNoDisplay) ∧
    (∀ cfgs, (find_configs cfgs).Sublist cfgs ∧
      ∀ c ∈ find_configs cfgs, c.compatibleWithWindow = true ∧ c.supportsWindow = true) := by
  refine ⟨?_, ?_, ?_, ?_⟩
  · intro cfgs c h1 h2
    simp [select_display_config, h1, h2]
  · intro cfgs c h0 h1 h2
    simp [select_display_config, h0, h1, h2]
  · intro h0 h1
    simp [select_display_config, h0, h1]
  · intro cfgs
    refine ⟨List.filter_sublist cfgs, fun c hc => ?_⟩
    have hm := (List.mem_filter.mp hc).2
    have hb := Bool.and_eq_true_iff.mp hm
    exact hb

theorem backend_fallback_selection_witness :
    select_display_config ⟨some [⟨false, true, 1⟩, ⟨true, true, 2⟩], none⟩ =
      .ok (.glx, ⟨true, true, 2⟩) ∧
    select_display_config ⟨none, some [⟨true, true, 9⟩]⟩ = .ok (.egl, ⟨true, true, 9⟩) ∧
    select_display_config ⟨none, none⟩ = .error .expectNoDisplay :=
  ⟨(backend_fallback_selection _).1 [⟨false, true, 1⟩, ⟨true, true, 2⟩] ⟨true, true, 2⟩ rfl rfl,
    (backend_fallback_selection _).2.1 [⟨true, true, 9⟩] ⟨true, true, 9⟩ rfl rfl rfl,
    (backend_fallback_selection _).2.2.1 rfl rfl⟩

/-- C2 counterexample: at the initial size 800x600 the initialization trace
refutes the claimed order — the Compute (headless) context is not acquired
first and the renderbuffer is not created under it (the Presentation/window
context is acquired first and creates it, see `resource_init_order`). -/
theorem resource_init_order_refutation : claimC2Order 800 600 = false := by decide

/-- C2 (amended): the shared resources are created once, immediately after
both contexts and both surfaces exist, but under the PRESENTATION (window)
context first: it is acquired first and creates the renderbuffer, with
storage allocated exactly once and sized to the window's initial logical
size, and creates its own framebuffer attaching that renderbuffer as color
target 0; only after Presentation is released is the Compute context
acquired, and its framebuffer created and attached to the same
renderbuffer. -/
theorem resource_init_order (w h : Nat) (hw : w < 2 ^ 31) (hh : h < 2 ^ 31) :
    firstAcquire (setupTrace w h) = some .wnd ∧
    (setupTrace w h).filter isAcquire = [.acquire .wnd, .acquire .head] ∧
    createdRbUnder (setupTrace w h) .wnd = true ∧
    opsUnderHeld (setupTrace w h) none = true ∧
    (postSetup w h).rbStorage = some (RGB8, (w : Int), (h : Int)) ∧
    (postSetup w h).attach .wnd window_fb = some render_buf ∧
    (postSetup w h).attach .head headless_fb = some render_buf ∧
    (setupTrace w h).countP isStorage = 1 := by
  obtain ⟨f1, -, -, -, -, f6, f7, -⟩ := exec_setupTrace_facts w h hw hh
  exact ⟨rfl, rfl, rfl, rfl, f1, f6, f7, rfl⟩

theorem resource_init_order_witness :
    firstAcquire (setupTrace 800 600) = some .wnd ∧
    (setupTrace 800 600).filter isAcquire = [.acquire .wnd, .acquire .head] ∧
    createdRbUnder (setupTrace 800 600) .wnd = true ∧
    opsUnderHeld (setupTrace 800 600) none = true ∧
    (postSetup 800 600).rbStorage = some (RGB8, (800 : Int), (600 : Int)) ∧
    (postSetup 800 600).attach .wnd window_fb = some render_buf ∧
    (postSetup 800 600).attach .head headless_fb = some render_buf ∧
    (setupTrace 800 600).countP isStorage = 1 :=
  resource_init_order 800 600 (by decide) (by decide)

/-- C3 counterexample: the resize event (2^31, 600) has positive width and
height that fit a `u32`, and the handler completes; but the width passes
through an `as i32` cast, `glRenderbufferStorage`/`glViewport` receive a
negative width and fail with `GL_INVALID_VALUE`, so after the protocol the
renderbuffer storage does not equal (W,H) and Presentation's viewport does
not equal (0,0,W,H). -/
theorem resize_consistency_refutation :
    0 < (2 ^ 31 : Nat) ∧
    resizeHandler (2 ^ 31) 600 = .ok (resizeTrace (2 ^ 31) 600) ∧
    (exec (postSetup 800 600) (resizeTrace (2 ^ 31) 600)).rbStorage ≠
      some (RGB8, ((2 ^ 31 : Nat) : Int), (600 : Int)) ∧
    (exec (postSetup 800 600) (resizeTrace (2 ^ 31) 600)).wnd.viewport ≠
      ⟨0, 0, ((2 ^ 31 : Nat) : Int), (600 : Int)⟩ :=
  ⟨by norm_num, rfl, by decide, by decide⟩

/-- C3 (amended): for every resize event with positive width and height below
2^31 (the claim as stated fails at W = 2^31, see
`resize_consistency_refutation`): the handler runs to completion; it acquires
Presentation, resizes the window surface, presents it, reallocates the shared
renderbuffer's storage exactly once in the whole round with format RGB8
unchanged and sets Presentation's viewport; then acquires Compute, resizes
the offscreen surface, presents it and sets Compute's viewport, never
touching the renderbuffer in that phase; the redraw request is the final
action; and afterwards the renderbuffer storage equals (W,H) and both
viewports equal (0,0,W,H). -/
theorem resize_protocol_consistency (s : GLState) (w h : Nat)
    (hw0 : 0 < w) (hh0 : 0 < h) (hw : w < 2 ^ 31) (hh : h < 2 ^ 31)
    (hrb : s.wnd.boundRb = some render_buf) :
    resizeHandler w h = .ok (resizeTrace w h) ∧
    (exec s (resizeTrace w h)).rbStorage = some (RGB8, (w : Int), (h : Int)) ∧
    (exec s (resizeTrace w h)).wnd.viewport = ⟨0, 0, (w : Int), (h : Int)⟩ ∧
    (exec s (resizeTrace w h)).head.viewport = ⟨0, 0, (w : Int), (h : Int)⟩ ∧
    (exec s (resizeTrace w h)).windowSurf = (w, h) ∧
    (exec s (resizeTrace w h)).headlessSurf = (w, h) ∧
    (exec s (resizeTrace w h)).presents = s.presents ++ [Surf.window, Surf.headless] ∧
    (resizeTrace w h).countP isStorage = 1 ∧
    (headPhase (resizeTrace w h)).any touchesRb = false ∧
    opsUnderHeld (resizeTrace w h) none = true ∧
    (resizeTrace w h).filter isAcquire = [.acquire .wnd, .acquire .head] ∧
    (resizeTrace w h).getLast? = some .requestRedraw := by
  refine ⟨resizeHandler_ok w h hw0 hh0, ?_, ?_, ?_, ?_, ?_, ?_, rfl, rfl, rfl, rfl, rfl⟩ <;>
    rw [exec_resizeTrace s w h hrb hw hh]

theorem resize_protocol_consistency_witness :
    resizeHandler 400 300 = .ok (resizeTrace 400 300) ∧
    (exec (postSetup 800 600) (resizeTrace 400 300)).rbStorage =
      some (RGB8, (400 : Int), (300 : Int)) ∧
    (exec (postSetup 800 600) (resizeTrace 400 300)).wnd.viewport =
      ⟨0, 0, (400 : Int), (300 : Int)⟩ ∧
    (exec (postSetup 800 600) (resizeTrace 400 300)).head.viewport =
      ⟨0, 0, (400 : Int), (300 : Int)⟩ ∧
    (exec (postSetup 800 600) (resizeTrace 400 300)).windowSurf = (400, 300) ∧
    (exec (postSetup 800 600) (resizeTrace 400 300)).headlessSurf = (400, 300) ∧
    (exec (postSetup 800 600) (resizeTrace 400 300)).presents =
      (postSetup 800 600).presents ++ [Surf.window, Surf.headless] ∧
    (resizeTrace 400 300).countP isStorage = 1 ∧
    (headPhase (resizeTrace 400 300)).any touchesRb = false ∧
    opsUnderHeld (resizeTrace 400 300) none = true ∧
    (resizeTrace 400 300).filter isAcquire = [.acquire .wnd, .acquire .head] ∧
    (resizeTrace 400 300).getLast? = some .requestRedraw :=
  resize_protocol_consistency (postSetup 800 600) 400 300
    (by decide) (by decide) (by decide) (by decide) (by decide)

/-- C4: on a redraw, the Compute context is acquired and its framebuffer
(the one left bound by the initialization, attaching the shared
renderbuffer) is cleared to the frame's clear color (1, 0.5, 0.7, 1); the
offscreen surface is presented before Compute is released; then Presentation
is acquired, the framebuffer attaching the shared renderbuffer is bound as
the read source and its full rectangle (0,0,W,H) is blitted to the identical
rectangle of the default window framebuffer with nearest filtering and a
color-only mask, the window surface is presented, and Presentation is
released last. -/
theorem redraw_pipeline (s : GLState) (w h : Nat) (hw : w < 2 ^ 31) (hh : h < 2 ^ 31)
    (hfb : s.head.drawFb = some headless_fb)
    (hat : s.attach .head headless_fb = some render_buf) :
    (exec s (redrawTrace w h)).head.lastClear =
      some ⟨some headless_fb, ⟨1, 1 / 2, 7 / 10, 1⟩⟩ ∧
    (exec s (redrawTrace w h)).wnd.lastBlit = some ⟨some headless_fb,
      ⟨0, 0, (w : Int), (h : Int)⟩, ⟨0, 0, (w : Int), (h : Int)⟩, COLOR_BUFFER_BIT, NEAREST⟩ ∧
    (exec s (redrawTrace w h)).attach .head headless_fb = some render_buf ∧
    (exec s (redrawTrace w h)).presents = s.presents ++ [Surf.headless, Surf.window] ∧
    opsUnderHeld (redrawTrace w h) none = true ∧
    (redrawTrace w h).filter isAcquire = [.acquire .head, .acquire .wnd] ∧
    (redrawTrace w h).getLast? = some (.release .wnd) := by
  obtain ⟨h1, h2, h3, h4, -⟩ := exec_redrawTrace_facts s w h hw hh hfb
  exact ⟨h1, h2, by rw [h4]; exact hat, h3, rfl, rfl, rfl⟩

theorem redraw_pipeline_witness :
    (exec (postSetup 800 600) (redrawTrace 800 600)).head.lastClear =
      some ⟨some headless_fb, ⟨1, 1 / 2, 7 / 10, 1⟩⟩ ∧
    (exec (postSetup 800 600) (redrawTrace 800 600)).wnd.lastBlit = some ⟨some headless_fb,
      ⟨0, 0, (800 : Int), (600 : Int)⟩, ⟨0, 0, (800 : Int), (600 : Int)⟩,
      COLOR_BUFFER_BIT, NEAREST⟩ ∧
    (exec (postSetup 800 600) (redrawTrace 800 600)).attach .head headless_fb =
      some render_buf ∧
    (exec (postSetup 800 600) (redrawTrace 800 600)).presents =
      (postSetup 800 600).presents ++ [Surf.headless, Surf.window] ∧
    opsUnderHeld (redrawTrace 800 600) none = true ∧
    (redrawTrace 800 600).filter isAcquire = [.acquire .head, .acquire .wnd] ∧
    (redrawTrace 800 600).getLast? = some (.release .wnd) :=
  redraw_pipeline (postSetup 800 600) 800 600 (by decide) (by decide) (by decide) (by decide)

/-- C5: when the shutdown signal (`LoopDestroyed`, the final event winit
delivers) arrives after any panic-free run that did not already tear down,
the teardown trace is the final segment of the whole action trace — no GL
call occurs after it; it acquires Presentation, deletes its framebuffer and
then the shared renderbuffer, releases Presentation, then acquires Compute,
deletes its framebuffer and releases Compute; and the shared renderbuffer is
deleted exactly once over the entire run even though both framebuffers
reference it. -/
theorem teardown_shutdown (evs : List Ev) (w0 h0 : Nat) (tr : List Act) (s' : Nat × Nat)
    (hne : ∀ e ∈ evs, e ≠ Ev.loopDestroyed)
    (hp : processEvents (evs ++ [Ev.loopDestroyed]) (w0, h0) = .ok (tr, s')) :
    teardownTrace.isSuffixOf tr = true ∧
    countRbDeletes tr = 1 ∧
    opsUnderHeld teardownTrace none = true ∧
    teardownTrace.filter isAcquire = [.acquire .wnd, .acquire .head] ∧
    (∀ s : GLState, (exec s teardownTrace).rbDeleted = s.rbDeleted + 1 ∧
      (exec s teardownTrace).deletedFbs =
        s.deletedFbs ++ [(Ctx.wnd, window_fb), (Ctx.head, headless_fb)]) := by
  obtain ⟨t1, s1, t2, h1, h2, htr⟩ := processEvents_append_inv hp
  have ht2 : t2 = teardownTrace := by
    simp [processEvents, step, Except.bind] at h2
    exact h2.1.symm
  have hc1 : countRbDeletes t1 = 0 :=
    processEvents_no_rbDelete evs (w0, h0) t1 s1 hne h1
  subst ht2
  subst htr
  refine ⟨isSuffixOf_append_self teardownTrace t1, ?_, rfl, rfl, exec_teardownTrace⟩
  unfold countRbDeletes at hc1 ⊢
  rw [List.countP_append, hc1]
  rfl

theorem teardown_shutdown_witness :
    teardownTrace.isSuffixOf (redrawTrace 640 480 ++ (teardownTrace ++ [])) = true ∧
    countRbDeletes (redrawTrace 640 480 ++ (teardownTrace ++ [])) = 1 ∧
    (exec (startState 8 6) teardownTrace).rbDeleted = 1 := by
  have T := teardown_shutdown [Ev.redrawRequested] 640 480
    (redrawTrace 640 480 ++ (teardownTrace ++ [])) (640, 480) (by decide) rfl
  refine ⟨T.1, T.2.1, ?_⟩
  rw [(T.2.2.2.2 (startState 8 6)).1]
  rfl

/-- C6 counterexample: at size 800x600 neither the initialization trace nor
the resize trace has its attachment and storage calls immediately followed by
a completeness check, refuting the claim. -/
theorem completeness_check_refutation : claimC6Checked 800 600 = false := by decide

/-- C6 (amended): the program performs no framebuffer-completeness check at
all — none of its traces (initialization, resize, redraw, teardown) contains
a `checkFramebufferStatus` call, so an incomplete framebuffer is never
detected, rather than being a fatal error caught immediately. -/
theorem no_completeness_checks (w h : Nat) :
    countChecks (setupTrace w h) = 0 ∧ countChecks (resizeTrace w h) = 0 ∧
    countChecks (redrawTrace w h) = 0 ∧ countChecks teardownTrace = 0 :=
  ⟨rfl, rfl, rfl, rfl⟩

/-- C10 counterexample: a resize event to 1x1 (positive sizes, so the handler
completes) leaves the offscreen surface at size 1x1, refuting the claim that
it never has size 1x1 after the first resize. -/
theorem offscreen_resize_refutation :
    resizeHandler 1 1 = .ok (resizeTrace 1 1) ∧
    (exec (postSetup 800 600) (resizeTrace 1 1)).headlessSurf = (1, 1) :=
  ⟨rfl, by decide⟩

/-- C10 (amended): both the presentation surface and the "offscreen" surface
are window surfaces created over the same native window handle; the
offscreen surface is created at 1x1, and every resize event resizes it (and
the window surface) to the full new window dimensions — so after the first
resize its size equals the window size, which is 1x1 only when the window
itself was resized to 1x1. -/
theorem offscreen_surface_tracks_window (raw w0 h0 : Nat) (hw0 : 0 < w0) (hh0 : 0 < h0) :
    create_surface w0 h0 raw = .ok ⟨raw, (w0, h0)⟩ ∧
    create_surface 1 1 raw = .ok ⟨raw, (1, 1)⟩ ∧
    (∀ (s : GLState) (w h : Nat),
      (exec s (resizeTrace w h)).headlessSurf = (w, h) ∧
      (exec s (resizeTrace w h)).windowSurf = (w, h)) := by
  refine ⟨?_, rfl, fun s w h => exec_resizeTrace_surfaces s w h⟩
  simp [create_surface, NonZeroU32.new, hw0.ne', hh0.ne']

theorem offscreen_surface_tracks_window_witness :
    create_surface 800 600 5 = .ok ⟨5, (800, 600)⟩ ∧
    create_surface 1 1 5 = .ok ⟨5, (1, 1)⟩ ∧
    (exec (postSetup 800 600) (resizeTrace 400 300)).headlessSurf = (400, 300) := by
  have T := offscreen_surface_tracks_window 5 800 600 (by decide) (by decide)
  exact ⟨T.1, T.2.1, (T.2.2 (postSetup 800 600) 400 300).1⟩

end GlutinSharing
